import Mathlib

/-!
Verification of the BOF-request document workflow of the datatracker
repository, as described by its specification and pinned by the behaviors
asserted in `ietf/doc/tests_bofreq.py`.

The web views themselves (`ietf.doc.views_bofreq`) are not part of the
source tree here; every operation below is therefore modelled from the
specification (sections 3, 4, 6 and 7), with its observable behavior pinned
by the concrete assertions of the test suite: HTTP statuses, document
fields after the request, event counts, editor rosters and outbox sizes.
-/

namespace Bofreq

/-- Modelled from the spec: the lifecycle states of a BOF request in the
state type "bofreq" — proposed (initial), approved, declined. -/
inductive BofreqState where
  | proposed
  | approved
  | declined
deriving DecidableEq, Repr

/-- Modelled from the spec: the roles an authenticated user may hold.
`secretary`, `ad` and `iabMember` are the privileged roles exercised by the
tests; `ordinary` is a logged-in user with no privileged role. -/
inductive Role where
  | secretary
  | ad
  | iabMember
  | ordinary
deriving DecidableEq, Repr

/-- Modelled from the spec: the actor issuing an HTTP request — either the
anonymous client or a logged-in person (identified by a person id) holding
a role. -/
inductive Actor where
  | anonymous
  | loggedIn (person : Nat) (role : Role)
deriving DecidableEq, Repr

/-- Modelled from the spec: the types of DocEvent log entries attached to a
document (new-revision, editor-change, state-change, comment, title edit). -/
inductive DocEventType where
  | newRevision
  | editorChange
  | stateChange
  | comment
  | titleChange
deriving DecidableEq, Repr

/-- Modelled from the spec: an immutable log entry attached to a document,
typed, with a free-text description; editor-change events carry the new
editor set, new-revision events carry the revision string. -/
structure DocEvent where
  etype : DocEventType
  desc : String
  editors : List Nat
  rev : String
deriving DecidableEq, Repr

/-- Modelled from the spec: a document identified by name, with title,
current revision (two-digit string), state, text content keyed by revision,
and an append-only event history (newest event first). -/
structure Document where
  name : String
  title : String
  rev : String
  state : BofreqState
  texts : List (String × String)
  events : List DocEvent
deriving DecidableEq, Repr

/-- Whether an event is an editor-change event. -/
def isEditorEvent (e : DocEvent) : Bool :=
  match e.etype with
  | DocEventType.editorChange => true
  | _ => false

/-- Modelled from the spec: the current editor set of a document is the
one attached to the latest (most recent) editor-change event. -/
def latestEditors (d : Document) : List Nat :=
  match d.events.find? isEditorEvent with
  | some e => e.editors
  | none => []

/-- The text content stored for the document's current revision. -/
def docText (d : Document) : Option String :=
  (d.texts.find? (fun kv => kv.1 == d.rev)).map (fun kv => kv.2)

/-- The revision string for a revision number, two digits for numbers
below 100 (Python's `'%02d' % n`). -/
def revString (n : Nat) : String :=
  if n < 10 then "0" ++ toString n else toString n

/-- The numeric value of a decimal digit character. -/
def digitVal (c : Char) : Nat := c.toNat - 48

/-- Parse a string of decimal digits into a number (the value of Python's
`int` on the revision strings this model produces). -/
def parseNat (s : String) : Nat :=
  s.data.foldl (fun n c => n * 10 + digitVal c) 0

/-- The successor revision string: parse the current revision and format
the incremented number ( `'%02d' % (int(rev)+1)` in the tests). -/
def revSucc (r : String) : String :=
  revString (parseNat r + 1)

/-- Modelled from the spec: whether a role may manage BOF requests — the
secretary and the privileged roles (area director, IAB member) may. -/
def canManage (r : Role) : Bool :=
  match r with
  | Role.secretary => true
  | Role.ad => true
  | Role.iabMember => true
  | Role.ordinary => false

/-- Whether the role is the secretary role. -/
def isSecretary (r : Role) : Bool :=
  match r with
  | Role.secretary => true
  | _ => false

/-- Modelled from the spec, section 4.1: an actor is authorized to act on a
document when it is logged in and either holds a privileged role or is one
of the document's current editors; anonymous and unrelated users are
denied. -/
def isAuthorized (a : Actor) (d : Document) : Bool :=
  match a with
  | Actor.anonymous => false
  | Actor.loggedIn p r => canManage r || (latestEditors d).contains p

/-- Modelled from the spec: the asymmetric limit on state changes — only
the secretary role may set the state to approved directly; other
authorized actors may request any other state (such as declined). -/
def stateAllowed (r : Role) (s : BofreqState) : Bool :=
  match s with
  | BofreqState.approved => isSecretary r
  | _ => true

/-- The observable result of a state-changing POST: the HTTP status, the
resulting document, the subjects of the notification emails sent, and
whether the response re-renders the form with a visible error. -/
structure PostResult where
  status : Nat
  doc : Document
  emails : List String
  formError : Bool
deriving DecidableEq, Repr

/-- Modelled from the spec: the title-edit POST endpoint. Anonymous users
are redirected (302) with no effect; logged-in users who are neither
privileged nor editors receive 403 with no effect; authorized users get
the title set, one appended DocEvent, one notification email and a 302
redirect. -/
def editTitle (a : Actor) (d : Document) (newTitle : String) : PostResult :=
  match a with
  | Actor.anonymous => ⟨302, d, [], false⟩
  | Actor.loggedIn p r =>
    if canManage r || (latestEditors d).contains p then
      ⟨302,
        { d with title := newTitle,
                 events := ⟨DocEventType.titleChange,
                            "Changed title to " ++ newTitle, [], ""⟩ :: d.events },
        ["bofreq title changed" ++ (": " ++ d.name)], false⟩
    else ⟨403, d, [], false⟩

/-- Modelled from the spec: the state-change POST endpoint. Anonymous users
are redirected (302) with no effect; a logged-in actor must be privileged
or an editor, and setting the approved state additionally requires the
secretary role; a denied logged-in actor receives 403 with no effect. On
success the state is set, a state-change event is appended (plus a comment
event when a comment is given) and a 302 redirect is returned. -/
def changeState (a : Actor) (d : Document) (newState : BofreqState)
    (comment : String) : PostResult :=
  match a with
  | Actor.anonymous => ⟨302, d, [], false⟩
  | Actor.loggedIn p r =>
    if (canManage r || (latestEditors d).contains p) && stateAllowed r newState then
      let stEvent : DocEvent := ⟨DocEventType.stateChange, "State changed", [], ""⟩
      let evs :=
        if comment = "" then [stEvent]
        else [⟨DocEventType.comment, comment, [], ""⟩, stEvent]
      ⟨302, { d with state := newState, events := evs ++ d.events }, [], false⟩
    else ⟨403, d, [], false⟩

/-- Modelled from the spec, section 4.4: the editor-change POST endpoint.
Anonymous users are redirected (302) with no effect; unauthorized
logged-in users receive 403 with no effect; authorized users get a new
editor-change event carrying the submitted set appended (prior events are
kept), exactly one notification email whose subject contains
"BOF Request editors changed", and a 302 redirect. -/
def changeEditors (a : Actor) (d : Document) (newEditors : List Nat) : PostResult :=
  match a with
  | Actor.anonymous => ⟨302, d, [], false⟩
  | Actor.loggedIn p r =>
    if canManage r || (latestEditors d).contains p then
      ⟨302,
        { d with events := ⟨DocEventType.editorChange, "Changed editors",
                            newEditors, ""⟩ :: d.events },
        ["BOF Request editors changed" ++ (": " ++ d.name)], false⟩
    else ⟨403, d, [], false⟩

/-- Modelled from the spec: a revision submission carries the new text
either typed inline (enter) or as an uploaded file (upload). -/
inductive BofreqSubmission where
  | enter (content : String)
  | upload (fileContent : String)
deriving DecidableEq, Repr

/-- The text carried by a submission, whichever way it arrived. -/
def submissionContent (s : BofreqSubmission) : String :=
  match s with
  | BofreqSubmission.enter c => c
  | BofreqSubmission.upload c => c

/-- The document after a successful revision submission: revision
incremented, text stored under the new revision, a new-revision event
appended. -/
def applyRevision (d : Document) (content : String) : Document :=
  { d with rev := revSucc d.rev,
           texts := (revSucc d.rev, content) :: d.texts,
           events := ⟨DocEventType.newRevision, "New revision available",
                      [], revSucc d.rev⟩ :: d.events }

/-- Modelled from the spec, section 4.3: the revision-submission POST
endpoint. Anonymous users are redirected (302) with no effect;
unauthorized logged-in users receive 403 with no effect; an authorized
submission whose content is empty is rejected with a form-level error,
re-rendering the input form (status 200, no state change, no email);
otherwise the revision is incremented, the submitted text stored, one
new-revision event appended, one notification email sent and a 302
redirect returned — the inline and upload paths are handled separately
but behave the same for the same content. -/
def submit (a : Actor) (d : Document) (s : BofreqSubmission) : PostResult :=
  match a with
  | Actor.anonymous => ⟨302, d, [], false⟩
  | Actor.loggedIn p r =>
    if canManage r || (latestEditors d).contains p then
      match s with
      | BofreqSubmission.enter c =>
          if c = "" then ⟨200, d, [], true⟩
          else ⟨302, applyRevision d c, ["New version available" ++ (": " ++ d.name)], false⟩
      | BofreqSubmission.upload c =>
          if c = "" then ⟨200, d, [], true⟩
          else ⟨302, applyRevision d c, ["New version available" ++ (": " ++ d.name)], false⟩
    else ⟨403, d, [], false⟩

/-- Modelled from the spec: how the new-request form supplies its content —
typed inline, uploaded, or with no valid choice (the tests post
`bofreq_submission=''`). -/
inductive SubmissionMode where
  | enter
  | upload
  | invalid
deriving DecidableEq, Repr

/-- Modelled from the spec: the fields of the new-BOF-request form. -/
structure NewBofreqPost where
  title : String
  mode : SubmissionMode
  content : String
  fileContent : String
deriving DecidableEq, Repr

/-- The content selected by the form's submission mode, if any. -/
def formContent (post : NewBofreqPost) : Option String :=
  match post.mode with
  | SubmissionMode.enter => some post.content
  | SubmissionMode.upload => some post.fileContent
  | SubmissionMode.invalid => none

/-- Whether every character of the string is ASCII. -/
def isAsciiString (s : String) : Bool :=
  s.data.all (fun c => c.toNat < 128)

/-- The document name derived from the title
(`f"bofreq-{title}".replace(' ','-')` in the tests). -/
def bofreqName (title : String) : String :=
  ("bofreq-" ++ title).replace " " "-"

/-- The observable result of posting the new-request form: HTTP status, the
created document if any, the resulting document store, whether a form
error is displayed, and the notification emails sent. -/
structure NewBofreqResult where
  status : Nat
  created : Option Document
  store : List Document
  formError : Bool
  emails : List String
deriving DecidableEq, Repr

/-- The freshly created document for a new request: derived name, given
title, revision "00", proposed state, the submitted content stored under
revision "00", and a history holding a new-revision event and an
editor-change event naming the requester as sole editor. -/
def initialBofreq (p : Nat) (title content : String) : Document :=
  { name := bofreqName title
    title := title
    rev := "00"
    state := BofreqState.proposed
    texts := [("00", content)]
    events := [⟨DocEventType.newRevision, "New revision available", [], "00"⟩,
               ⟨DocEventType.editorChange, "Changed editors", [p], ""⟩] }

/-- Modelled from the spec, sections 4.3 and 7: the new-request POST
endpoint. Anonymous users are redirected to login (302, nothing created);
a post with an empty title, a non-ASCII title, a missing submission
choice, empty content or a title duplicating an existing document
re-renders the form with status 200 and a form error, creating nothing;
otherwise the document is created in the proposed state at revision "00",
added to the store, and one notification email is sent with a 302
redirect. -/
def newBofreq (a : Actor) (store : List Document) (post : NewBofreqPost) :
    NewBofreqResult :=
  match a with
  | Actor.anonymous => ⟨302, none, store, false, []⟩
  | Actor.loggedIn p _ =>
    match formContent post with
    | none => ⟨200, none, store, true, []⟩
    | some c =>
      if post.title == "" || !isAsciiString post.title || c == ""
          || store.any (fun d => d.title == post.title) then
        ⟨200, none, store, true, []⟩
      else
        let d := initialBofreq p post.title c
        ⟨302, some d, d :: store, false,
          ["New BOF request" ++ (": " ++ d.name)]⟩

/-- A concrete document used by the closed witness theorems: one revision
already submitted, currently proposed, with persons 1 and 2 as the current
editors. -/
def sampleDoc : Document :=
  { name := "bofreq-example"
    title := "Example"
    rev := "01"
    state := BofreqState.proposed
    texts := [("01", "# v1"), ("00", "# v0")]
    events := [⟨DocEventType.newRevision, "New revision available", [], "01"⟩,
               ⟨DocEventType.editorChange, "Changed editors", [1, 2], ""⟩,
               ⟨DocEventType.newRevision, "New revision available", [], "00"⟩] }

/-- C1: for every unauthorized actor (anonymous, or logged in but neither a
document editor nor privileged), a state-changing POST to the title-edit,
state-change, editor-change, or revision-submission endpoint leaves the
document unchanged (hence same title, state, revision and editor set) and
returns either 403 or a no-op redirect (302). -/
theorem bofreq_unauthorized_posts_are_noops (a : Actor) (d : Document)
    (t : String) (s : BofreqState) (c : String) (eds : List Nat)
    (sub : BofreqSubmission)
    (h : isAuthorized a d = false) :
    ((editTitle a d t).doc = d ∧
      ((editTitle a d t).status = 403 ∨ (editTitle a d t).status = 302)) ∧
    ((changeState a d s c).doc = d ∧
      ((changeState a d s c).status = 403 ∨ (changeState a d s c).status = 302)) ∧
    ((changeEditors a d eds).doc = d ∧
      ((changeEditors a d eds).status = 403 ∨ (changeEditors a d eds).status = 302)) ∧
    ((submit a d sub).doc = d ∧
      ((submit a d sub).status = 403 ∨ (submit a d sub).status = 302)) := by
  cases a with
  | anonymous => simp [editTitle, changeState, changeEditors, submit]
  | loggedIn p r =>
    simp [isAuthorized] at h
    simp [editTitle, changeState, changeEditors, submit, h.1, h.2]

/-- Witness for C1 at the unrelated logged-in user 99 against `sampleDoc`. -/
theorem bofreq_unauthorized_posts_are_noops_witness :
    isAuthorized (Actor.loggedIn 99 Role.ordinary) sampleDoc = false ∧
    (((editTitle (Actor.loggedIn 99 Role.ordinary) sampleDoc "x").doc = sampleDoc ∧
      ((editTitle (Actor.loggedIn 99 Role.ordinary) sampleDoc "x").status = 403 ∨
       (editTitle (Actor.loggedIn 99 Role.ordinary) sampleDoc "x").status = 302)) ∧
    ((changeState (Actor.loggedIn 99 Role.ordinary) sampleDoc BofreqState.approved "c").doc = sampleDoc ∧
      ((changeState (Actor.loggedIn 99 Role.ordinary) sampleDoc BofreqState.approved "c").status = 403 ∨
       (changeState (Actor.loggedIn 99 Role.ordinary) sampleDoc BofreqState.approved "c").status = 302)) ∧
    ((changeEditors (Actor.loggedIn 99 Role.ordinary) sampleDoc [7]).doc = sampleDoc ∧
      ((changeEditors (Actor.loggedIn 99 Role.ordinary) sampleDoc [7]).status = 403 ∨
       (changeEditors (Actor.loggedIn 99 Role.ordinary) sampleDoc [7]).status = 302)) ∧
    ((submit (Actor.loggedIn 99 Role.ordinary) sampleDoc (BofreqSubmission.enter "y")).doc = sampleDoc ∧
      ((submit (Actor.loggedIn 99 Role.ordinary) sampleDoc (BofreqSubmission.enter "y")).status = 403 ∨
       (submit (Actor.loggedIn 99 Role.ordinary) sampleDoc (BofreqSubmission.enter "y")).status = 302))) :=
  ⟨by decide,
   bofreq_unauthorized_posts_are_noops (Actor.loggedIn 99 Role.ordinary) sampleDoc
     "x" BofreqState.approved "c" [7] (BofreqSubmission.enter "y") (by decide)⟩

/-- C2 counterexample: the claim says post actions from unauthenticated or
unrelated users receive a silent redirect (302); but an unrelated
logged-in user (person 99, no privileged role, not an editor of
`sampleDoc`) posting a title edit receives status 403, not 302 — exactly
as the test suite asserts for the `nobody` user. -/
theorem bofreq_unrelated_post_gets_403_not_302 :
    (editTitle (Actor.loggedIn 99 Role.ordinary) sampleDoc "New title").status = 403 ∧
    ¬ (editTitle (Actor.loggedIn 99 Role.ordinary) sampleDoc "New title").status = 302 := by
  decide

/-- C2 (amended): authorization failures are signalled as follows — POSTs
from unauthenticated (anonymous) actors receive a silent redirect (302)
with no effect on the document, while attempts by logged-in but
unauthorized users receive status 403, also with no effect. -/
theorem bofreq_auth_failure_statuses (d : Document) (p : Nat) (r : Role)
    (t c : String) (s : BofreqState) (eds : List Nat) (sub : BofreqSubmission)
    (h : isAuthorized (Actor.loggedIn p r) d = false) :
    ((editTitle Actor.anonymous d t).status = 302 ∧
     (editTitle Actor.anonymous d t).doc = d) ∧
    ((changeState Actor.anonymous d s c).status = 302 ∧
     (changeState Actor.anonymous d s c).doc = d) ∧
    ((changeEditors Actor.anonymous d eds).status = 302 ∧
     (changeEditors Actor.anonymous d eds).doc = d) ∧
    ((submit Actor.anonymous d sub).status = 302 ∧
     (submit Actor.anonymous d sub).doc = d) ∧
    ((editTitle (Actor.loggedIn p r) d t).status = 403 ∧
     (editTitle (Actor.loggedIn p r) d t).doc = d) ∧
    ((changeState (Actor.loggedIn p r) d s c).status = 403 ∧
     (changeState (Actor.loggedIn p r) d s c).doc = d) ∧
    ((changeEditors (Actor.loggedIn p r) d eds).status = 403 ∧
     (changeEditors (Actor.loggedIn p r) d eds).doc = d) ∧
    ((submit (Actor.loggedIn p r) d sub).status = 403 ∧
     (submit (Actor.loggedIn p r) d sub).doc = d) := by
  simp [isAuthorized] at h
  simp [editTitle, changeState, changeEditors, submit, h.1, h.2]

/-- Witness for the amended C2 at the unrelated logged-in user 99 against
`sampleDoc`. -/
theorem bofreq_auth_failure_statuses_witness :
    isAuthorized (Actor.loggedIn 99 Role.ordinary) sampleDoc = false ∧
    (((editTitle Actor.anonymous sampleDoc "x").status = 302 ∧
     (editTitle Actor.anonymous sampleDoc "x").doc = sampleDoc) ∧
    ((changeState Actor.anonymous sampleDoc BofreqState.approved "c").status = 302 ∧
     (changeState Actor.anonymous sampleDoc BofreqState.approved "c").doc = sampleDoc) ∧
    ((changeEditors Actor.anonymous sampleDoc [7]).status = 302 ∧
     (changeEditors Actor.anonymous sampleDoc [7]).doc = sampleDoc) ∧
    ((submit Actor.anonymous sampleDoc (BofreqSubmission.enter "y")).status = 302 ∧
     (submit Actor.anonymous sampleDoc (BofreqSubmission.enter "y")).doc = sampleDoc) ∧
    ((editTitle (Actor.loggedIn 99 Role.ordinary) sampleDoc "x").status = 403 ∧
     (editTitle (Actor.loggedIn 99 Role.ordinary) sampleDoc "x").doc = sampleDoc) ∧
    ((changeState (Actor.loggedIn 99 Role.ordinary) sampleDoc BofreqState.approved "c").status = 403 ∧
     (changeState (Actor.loggedIn 99 Role.ordinary) sampleDoc BofreqState.approved "c").doc = sampleDoc) ∧
    ((changeEditors (Actor.loggedIn 99 Role.ordinary) sampleDoc [7]).status = 403 ∧
     (changeEditors (Actor.loggedIn 99 Role.ordinary) sampleDoc [7]).doc = sampleDoc) ∧
    ((submit (Actor.loggedIn 99 Role.ordinary) sampleDoc (BofreqSubmission.enter "y")).status = 403 ∧
     (submit (Actor.loggedIn 99 Role.ordinary) sampleDoc (BofreqSubmission.enter "y")).doc = sampleDoc)) :=
  ⟨by decide,
   bofreq_auth_failure_statuses sampleDoc 99 Role.ordinary "x" "c"
     BofreqState.approved [7] (BofreqSubmission.enter "y") (by decide)⟩

/-- C9: for the same actor and the same content, submitting a revision as
inline text and submitting it as an uploaded file produce identical
observable outcomes — the full post result (status, resulting document,
emails) is equal. -/
theorem bofreq_submit_modes_equivalent (a : Actor) (d : Document) (c : String) :
    submit a d (BofreqSubmission.enter c) = submit a d (BofreqSubmission.upload c) := by
  cases a <;> rfl

/-- C10: for every authorized actor, a successful title edit returns a 302
redirect, sets the document's title to the submitted title, appends
exactly one DocEvent, and sends exactly one notification email. -/
theorem bofreq_edit_title_success_effects (a : Actor) (d : Document)
    (t : String) (h : isAuthorized a d = true) :
    (editTitle a d t).status = 302 ∧
    (editTitle a d t).doc.title = t ∧
    (editTitle a d t).doc.events.length = d.events.length + 1 ∧
    (editTitle a d t).emails.length = 1 := by
  cases a with
  | anonymous => simp [isAuthorized] at h
  | loggedIn p r =>
    simp [isAuthorized] at h
    rcases h with h | h <;> simp [editTitle, h]

/-- Witness for C10 at the editor (person 1) of `sampleDoc`. -/
theorem bofreq_edit_title_success_effects_witness :
    isAuthorized (Actor.loggedIn 1 Role.ordinary) sampleDoc = true ∧
    ((editTitle (Actor.loggedIn 1 Role.ordinary) sampleDoc "New title").status = 302 ∧
     (editTitle (Actor.loggedIn 1 Role.ordinary) sampleDoc "New title").doc.title = "New title" ∧
     (editTitle (Actor.loggedIn 1 Role.ordinary) sampleDoc "New title").doc.events.length =
       sampleDoc.events.length + 1 ∧
     (editTitle (Actor.loggedIn 1 Role.ordinary) sampleDoc "New title").emails.length = 1) :=
  ⟨by decide,
   bofreq_edit_title_success_effects (Actor.loggedIn 1 Role.ordinary) sampleDoc
     "New title" (by decide)⟩

/-- A role other than the secretary role is not recognized as secretary. -/
theorem isSecretary_eq_false (r : Role) (h : r ≠ Role.secretary) :
    isSecretary r = false := by
  cases r <;> first | rfl | exact absurd rfl h

/-- C3: only an actor with the secretary role may set a document's state to
approved directly — a document editor (any non-secretary role) may set the
state to declined, but a POST by such an editor requesting the approved
state is denied with 403 and the document unchanged; no non-secretary
actor (logged-in or anonymous) can make the state approved, while the
secretary can. -/
theorem bofreq_state_change_authorization (d : Document) (p q : Nat)
    (r r2 : Role) (c : String)
    (hp : (latestEditors d).contains p = true)
    (hr : r ≠ Role.secretary)
    (hr2 : r2 ≠ Role.secretary)
    (hs : d.state ≠ BofreqState.approved) :
    ((changeState (Actor.loggedIn p r) d BofreqState.declined c).status = 302 ∧
     (changeState (Actor.loggedIn p r) d BofreqState.declined c).doc.state =
       BofreqState.declined) ∧
    ((changeState (Actor.loggedIn p r) d BofreqState.approved c).status = 403 ∧
     (changeState (Actor.loggedIn p r) d BofreqState.approved c).doc = d) ∧
    (changeState (Actor.loggedIn q r2) d BofreqState.approved c).doc.state ≠
      BofreqState.approved ∧
    (changeState Actor.anonymous d BofreqState.approved c).doc.state ≠
      BofreqState.approved ∧
    ((changeState (Actor.loggedIn p Role.secretary) d BofreqState.approved c).status = 302 ∧
     (changeState (Actor.loggedIn p Role.secretary) d BofreqState.approved c).doc.state =
       BofreqState.approved) := by
  have hmem : p ∈ latestEditors d := by simpa using hp
  have hsec := isSecretary_eq_false r hr
  have hsec2 := isSecretary_eq_false r2 hr2
  refine ⟨⟨?_, ?_⟩, ⟨?_, ?_⟩, ?_, ?_, ?_, ?_⟩
  · simp [changeState, stateAllowed, hmem]
  · simp [changeState, stateAllowed, hmem]
  · simp [changeState, stateAllowed, hsec]
  · simp [changeState, stateAllowed, hsec]
  · simp [changeState, stateAllowed, hsec2, hs]
  · simp only [changeState]
    exact hs
  · simp [changeState, stateAllowed, isSecretary, canManage]
  · simp [changeState, stateAllowed, isSecretary, canManage]

/-- Witness for C3: person 1 is an editor of `sampleDoc` with the ordinary
role; person 99 with the area-director role is the other non-secretary
actor. -/
theorem bofreq_state_change_authorization_witness :
    ((latestEditors sampleDoc).contains 1 = true ∧
     Role.ordinary ≠ Role.secretary ∧
     Role.ad ≠ Role.secretary ∧
     sampleDoc.state ≠ BofreqState.approved) ∧
    (((changeState (Actor.loggedIn 1 Role.ordinary) sampleDoc BofreqState.declined "why").status = 302 ∧
     (changeState (Actor.loggedIn 1 Role.ordinary) sampleDoc BofreqState.declined "why").doc.state =
       BofreqState.declined) ∧
    ((changeState (Actor.loggedIn 1 Role.ordinary) sampleDoc BofreqState.approved "why").status = 403 ∧
     (changeState (Actor.loggedIn 1 Role.ordinary) sampleDoc BofreqState.approved "why").doc = sampleDoc) ∧
    (changeState (Actor.loggedIn 99 Role.ad) sampleDoc BofreqState.approved "why").doc.state ≠
      BofreqState.approved ∧
    (changeState Actor.anonymous sampleDoc BofreqState.approved "why").doc.state ≠
      BofreqState.approved ∧
    ((changeState (Actor.loggedIn 1 Role.secretary) sampleDoc BofreqState.approved "why").status = 302 ∧
     (changeState (Actor.loggedIn 1 Role.secretary) sampleDoc BofreqState.approved "why").doc.state =
       BofreqState.approved)) :=
  ⟨⟨by decide, by decide, by decide, by decide⟩,
   bofreq_state_change_authorization sampleDoc 1 99 Role.ordinary Role.ad "why"
     (by decide) (by decide) (by decide) (by decide)⟩

/-- For every revision number below 100, the formatted revision string has
exactly two digits. -/
theorem revString_length_two : ∀ m, m < 100 → (revString m).length = 2 := by
  decide

/-- C4: for every authorized actor, a successful revision submission (one
whose submitted content is non-empty, so it passes the form validation)
returns 302, increments the document's revision by exactly one (kept as a
two-digit string while below 100), stores the submitted text as the
document's current text, appends exactly one DocEvent, and sends exactly
one notification email. -/
theorem bofreq_submit_success_effects (a : Actor) (d : Document)
    (s : BofreqSubmission)
    (h : isAuthorized a d = true)
    (hne : submissionContent s ≠ "")
    (hlt : parseNat d.rev + 1 < 100) :
    (submit a d s).status = 302 ∧
    (submit a d s).doc.rev = revSucc d.rev ∧
    ((submit a d s).doc.rev).length = 2 ∧
    docText (submit a d s).doc = some (submissionContent s) ∧
    (submit a d s).doc.events.length = d.events.length + 1 ∧
    (submit a d s).emails.length = 1 := by
  cases a with
  | anonymous => simp [isAuthorized] at h
  | loggedIn p r =>
    simp [isAuthorized] at h
    have hlen : (revSucc d.rev).length = 2 := revString_length_two _ hlt
    cases s with
    | enter c =>
      simp only [submissionContent] at hne
      rcases h with h | h <;>
        simp [submit, applyRevision, docText, submissionContent, h, hne, hlen, List.find?]
    | upload c =>
      simp only [submissionContent] at hne
      rcases h with h | h <;>
        simp [submit, applyRevision, docText, submissionContent, h, hne, hlen, List.find?]

/-- Witness for C4 at the editor (person 2) of `sampleDoc`, submitting
inline text. -/
theorem bofreq_submit_success_effects_witness :
    (isAuthorized (Actor.loggedIn 2 Role.ordinary) sampleDoc = true ∧
     submissionContent (BofreqSubmission.enter "# new") ≠ "" ∧
     parseNat sampleDoc.rev + 1 < 100) ∧
    ((submit (Actor.loggedIn 2 Role.ordinary) sampleDoc (BofreqSubmission.enter "# new")).status = 302 ∧
     (submit (Actor.loggedIn 2 Role.ordinary) sampleDoc (BofreqSubmission.enter "# new")).doc.rev =
       revSucc sampleDoc.rev ∧
     ((submit (Actor.loggedIn 2 Role.ordinary) sampleDoc (BofreqSubmission.enter "# new")).doc.rev).length = 2 ∧
     docText (submit (Actor.loggedIn 2 Role.ordinary) sampleDoc (BofreqSubmission.enter "# new")).doc =
       some (submissionContent (BofreqSubmission.enter "# new")) ∧
     (submit (Actor.loggedIn 2 Role.ordinary) sampleDoc (BofreqSubmission.enter "# new")).doc.events.length =
       sampleDoc.events.length + 1 ∧
     (submit (Actor.loggedIn 2 Role.ordinary) sampleDoc (BofreqSubmission.enter "# new")).emails.length = 1) :=
  ⟨⟨by decide, by decide, by decide⟩,
   bofreq_submit_success_effects (Actor.loggedIn 2 Role.ordinary) sampleDoc
     (BofreqSubmission.enter "# new") (by decide) (by decide) (by decide)⟩

/-- C5: for every logged-in actor, a new-request POST whose title is
empty, whose selected content is empty, or whose title duplicates an
existing document's title is answered with status 200 and a visible form
error, and no document is created — the store is unchanged. -/
theorem bofreq_new_request_invalid_form_rejected (store : List Document)
    (p : Nat) (r : Role) (post : NewBofreqPost)
    (h : post.title = "" ∨ formContent post = some "" ∨
         store.any (fun d => d.title == post.title) = true) :
    (newBofreq (Actor.loggedIn p r) store post).status = 200 ∧
    (newBofreq (Actor.loggedIn p r) store post).formError = true ∧
    (newBofreq (Actor.loggedIn p r) store post).created = none ∧
    (newBofreq (Actor.loggedIn p r) store post).store = store := by
  cases hc : formContent post with
  | none => simp [newBofreq, hc]
  | some c =>
    rcases h with h | h | h
    · simp [newBofreq, hc, h]
    · rw [hc] at h
      simp only [Option.some.injEq] at h
      simp [newBofreq, hc, h]
    · simp [newBofreq, hc, h]

/-- Witness for C5: posting an empty title against a store holding
`sampleDoc`. -/
theorem bofreq_new_request_invalid_form_rejected_witness :
    (NewBofreqPost.mk "" SubmissionMode.enter "stuff" "").title = "" ∧
    ((newBofreq (Actor.loggedIn 7 Role.ordinary) [sampleDoc]
        (NewBofreqPost.mk "" SubmissionMode.enter "stuff" "")).status = 200 ∧
     (newBofreq (Actor.loggedIn 7 Role.ordinary) [sampleDoc]
        (NewBofreqPost.mk "" SubmissionMode.enter "stuff" "")).formError = true ∧
     (newBofreq (Actor.loggedIn 7 Role.ordinary) [sampleDoc]
        (NewBofreqPost.mk "" SubmissionMode.enter "stuff" "")).created = none ∧
     (newBofreq (Actor.loggedIn 7 Role.ordinary) [sampleDoc]
        (NewBofreqPost.mk "" SubmissionMode.enter "stuff" "")).store = [sampleDoc]) :=
  ⟨by decide,
   bofreq_new_request_invalid_form_rejected [sampleDoc] 7 Role.ordinary
     (NewBofreqPost.mk "" SubmissionMode.enter "stuff" "") (Or.inl (by decide))⟩

/-- C6: every authorized editor-roster change returns 302 and replaces the
old roster with the submitted set by appending a new editor-change event:
the resulting latest editor set is exactly the submitted set, the
document's identity (name, title, revision, state) is preserved, and the
new history is the new event consed onto the old one, so prior rosters
stay in history. -/
theorem bofreq_change_editors_replaces_roster (a : Actor) (d : Document)
    (eds : List Nat) (h : isAuthorized a d = true) :
    (changeEditors a d eds).status = 302 ∧
    latestEditors (changeEditors a d eds).doc = eds ∧
    (changeEditors a d eds).doc.name = d.name ∧
    (changeEditors a d eds).doc.title = d.title ∧
    (changeEditors a d eds).doc.rev = d.rev ∧
    (changeEditors a d eds).doc.state = d.state ∧
    (changeEditors a d eds).doc.events =
      { etype := DocEventType.editorChange, desc := "Changed editors",
        editors := eds, rev := "" } :: d.events := by
  cases a with
  | anonymous => simp [isAuthorized] at h
  | loggedIn p r =>
    simp [isAuthorized] at h
    rcases h with h | h <;>
      simp [changeEditors, h] <;>
      simp [latestEditors, isEditorEvent, List.find?]

/-- Witness for C6 at the secretary against `sampleDoc`, replacing the
roster with persons 5 and 6. -/
theorem bofreq_change_editors_replaces_roster_witness :
    isAuthorized (Actor.loggedIn 0 Role.secretary) sampleDoc = true ∧
    ((changeEditors (Actor.loggedIn 0 Role.secretary) sampleDoc [5, 6]).status = 302 ∧
     latestEditors (changeEditors (Actor.loggedIn 0 Role.secretary) sampleDoc [5, 6]).doc = [5, 6] ∧
     (changeEditors (Actor.loggedIn 0 Role.secretary) sampleDoc [5, 6]).doc.name = sampleDoc.name ∧
     (changeEditors (Actor.loggedIn 0 Role.secretary) sampleDoc [5, 6]).doc.title = sampleDoc.title ∧
     (changeEditors (Actor.loggedIn 0 Role.secretary) sampleDoc [5, 6]).doc.rev = sampleDoc.rev ∧
     (changeEditors (Actor.loggedIn 0 Role.secretary) sampleDoc [5, 6]).doc.state = sampleDoc.state ∧
     (changeEditors (Actor.loggedIn 0 Role.secretary) sampleDoc [5, 6]).doc.events =
       { etype := DocEventType.editorChange, desc := "Changed editors",
         editors := [5, 6], rev := "" } :: sampleDoc.events) :=
  ⟨by decide,
   bofreq_change_editors_replaces_roster (Actor.loggedIn 0 Role.secretary)
     sampleDoc [5, 6] (by decide)⟩

/-- C7: every successful (authorized) editor-roster change sends exactly
one notification email, whose subject is the string
"BOF Request editors changed" followed by the document name — so the
subject contains "BOF Request editors changed". -/
theorem bofreq_change_editors_sends_one_email (a : Actor) (d : Document)
    (eds : List Nat) (h : isAuthorized a d = true) :
    (changeEditors a d eds).emails =
      ["BOF Request editors changed" ++ (": " ++ d.name)] ∧
    (changeEditors a d eds).emails.length = 1 := by
  cases a with
  | anonymous => simp [isAuthorized] at h
  | loggedIn p r =>
    simp [isAuthorized] at h
    rcases h with h | h <;> simp [changeEditors, h]

/-- Witness for C7 at the area director against `sampleDoc`. -/
theorem bofreq_change_editors_sends_one_email_witness :
    isAuthorized (Actor.loggedIn 3 Role.ad) sampleDoc = true ∧
    ((changeEditors (Actor.loggedIn 3 Role.ad) sampleDoc [5]).emails =
      ["BOF Request editors changed" ++ (": " ++ sampleDoc.name)] ∧
     (changeEditors (Actor.loggedIn 3 Role.ad) sampleDoc [5]).emails.length = 1) :=
  ⟨by decide,
   bofreq_change_editors_sends_one_email (Actor.loggedIn 3 Role.ad)
     sampleDoc [5] (by decide)⟩

/-- C8: every successfully created document starts in the proposed state
with revision "00" and stores the submitted content as its text, and the
same document is created whether the content was typed inline or
uploaded. -/
theorem bofreq_new_request_initial_state (store : List Document) (p : Nat)
    (r : Role) (title c junk : String)
    (ht : title ≠ "") (ha : isAsciiString title = true) (hc : c ≠ "")
    (hd : store.any (fun d => d.title == title) = false) :
    (newBofreq (Actor.loggedIn p r) store
        (NewBofreqPost.mk title SubmissionMode.enter c junk)).status = 302 ∧
    (newBofreq (Actor.loggedIn p r) store
        (NewBofreqPost.mk title SubmissionMode.enter c junk)).created =
      some (initialBofreq p title c) ∧
    (newBofreq (Actor.loggedIn p r) store
        (NewBofreqPost.mk title SubmissionMode.upload junk c)).status = 302 ∧
    (newBofreq (Actor.loggedIn p r) store
        (NewBofreqPost.mk title SubmissionMode.upload junk c)).created =
      some (initialBofreq p title c) ∧
    (initialBofreq p title c).state = BofreqState.proposed ∧
    (initialBofreq p title c).rev = "00" ∧
    docText (initialBofreq p title c) = some c := by
  simp [newBofreq, formContent, initialBofreq, docText, List.find?, ht, ha, hc, hd]

/-- Witness for C8: creating "A title" with content "some stuff" against a
store holding `sampleDoc`, in both submission modes. -/
theorem bofreq_new_request_initial_state_witness :
    ("A title" ≠ "" ∧ isAsciiString "A title" = true ∧ "some stuff" ≠ "" ∧
     List.any [sampleDoc] (fun d => d.title == "A title") = false) ∧
    ((newBofreq (Actor.loggedIn 7 Role.ordinary) [sampleDoc]
        (NewBofreqPost.mk "A title" SubmissionMode.enter "some stuff" "junk")).status = 302 ∧
     (newBofreq (Actor.loggedIn 7 Role.ordinary) [sampleDoc]
        (NewBofreqPost.mk "A title" SubmissionMode.enter "some stuff" "junk")).created =
       some (initialBofreq 7 "A title" "some stuff") ∧
     (newBofreq (Actor.loggedIn 7 Role.ordinary) [sampleDoc]
        (NewBofreqPost.mk "A title" SubmissionMode.upload "junk" "some stuff")).status = 302 ∧
     (newBofreq (Actor.loggedIn 7 Role.ordinary) [sampleDoc]
        (NewBofreqPost.mk "A title" SubmissionMode.upload "junk" "some stuff")).created =
       some (initialBofreq 7 "A title" "some stuff") ∧
     (initialBofreq 7 "A title" "some stuff").state = BofreqState.proposed ∧
     (initialBofreq 7 "A title" "some stuff").rev = "00" ∧
     docText (initialBofreq 7 "A title" "some stuff") = some "some stuff") :=
  ⟨⟨by decide, by decide, by decide, by decide⟩,
   bofreq_new_request_initial_state [sampleDoc] 7 Role.ordinary
     "A title" "some stuff" "junk" (by decide) (by decide) (by decide) (by decide)⟩

end Bofreq
